import Mathlib

/-!
Verification of the xknx DPT transcoding / remote-value layer.

Shallow embedding of:
  * `xknx/dpt/dpt_8.py`                        (DPT2ByteSigned family)
  * `xknx/remote_value/remote_value_raw.py`    (RemoteValueRaw)
  * `xknx/remote_value/remote_value_scaling.py`(RemoteValueScaling)
  * `xknx/tools/group_communication.py`        (group helpers)

Python numbers are modelled as rationals (`ℚ`), machine ints as `ℤ`.
Fallible operations return `Except PyErr`.
-/

/-- Python `int(q)`: truncation toward zero. -/
def pyInt (q : ℚ) : ℤ := if 0 ≤ q then ⌊q⌋ else ⌈q⌉

/-- Python `round(q)` (no digits argument): round half to even. -/
def pyRound (q : ℚ) : ℤ :=
  if q - ⌊q⌋ < 1/2 then ⌊q⌋
  else if 1/2 < q - ⌊q⌋ then ⌊q⌋ + 1
  else if ⌊q⌋ % 2 = 0 then ⌊q⌋ else ⌊q⌋ + 1

/-- Rounding half away from zero (the other rounding policy the spec allows). -/
def roundHalfAway (q : ℚ) : ℤ := if 0 ≤ q then ⌊q + 1/2⌋ else ⌈q - 1/2⌉

/-- Exceptions raised by the embedded code. -/
inductive PyErr where
  /-- `xknx.exceptions.ConversionError` -/
  | conversionError
  /-- `xknx.exceptions.CouldNotParseTelegram` -/
  | couldNotParseTelegram
  /-- Python `ZeroDivisionError` (not an xknx exception) -/
  | zeroDivisionError
  /-- Python `AssertionError` -/
  | assertionError
deriving DecidableEq

/-- Wire payloads: `DPTArray` (tuple of byte ints) or `DPTBinary` (scalar int). -/
inductive DPTPayload where
  | array (value : List ℤ)
  | binary (value : ℤ)
deriving DecidableEq

instance : DecidableEq (Except PyErr DPTPayload) := fun a b =>
  match a, b with
  | .ok x, .ok y => decidable_of_iff (x = y) (by simp)
  | .error x, .error y => decidable_of_iff (x = y) (by simp)
  | .ok _, .error _ => isFalse (by simp)
  | .error _, .ok _ => isFalse (by simp)

instance : DecidableEq (Except PyErr ℚ) := fun a b =>
  match a, b with
  | .ok x, .ok y => decidable_of_iff (x = y) (by simp)
  | .error x, .error y => decidable_of_iff (x = y) (by simp)
  | .ok _, .error _ => isFalse (by simp)
  | .error _, .ok _ => isFalse (by simp)

instance : DecidableEq (Except PyErr ℤ) := fun a b =>
  match a, b with
  | .ok x, .ok y => decidable_of_iff (x = y) (by simp)
  | .error x, .error y => decidable_of_iff (x = y) (by simp)
  | .ok _, .error _ => isFalse (by simp)
  | .error _, .ok _ => isFalse (by simp)

/-- `struct.pack(">h", z)`: big-endian two bytes, two's complement.  In the
source it is applied only after the `value_min <= z <= value_max` check, on
which range it never raises, so it is embedded as a total function. -/
def struct_pack_h (z : ℤ) : List ℤ := [z % 65536 / 256, z % 65536 % 256]

/-- `struct.unpack(">h", bytes)`: signed big-endian 16-bit; `none` models the
`struct.error` raised when the buffer is not exactly two bytes. -/
def struct_unpack_h : List ℤ → Option ℤ
  | [b1, b2] =>
      some (if b1 * 256 + b2 < 32768 then b1 * 256 + b2 else b1 * 256 + b2 - 65536)
  | _ => none

/-- The `DPT2ByteSigned` class and its subclasses, as a record of the class
attributes each subclass fixes (`dpt_8.py`).  Defaults are the attributes of
the base class. -/
structure DPT2ByteSigned where
  dpt_main_number : ℕ := 8
  dpt_sub_number : Option ℕ := none
  value_type : String := "2byte_signed"
  payload_length : ℕ := 2
  value_min : ℤ := -32768
  value_max : ℤ := 32767
  resolution : ℚ := 1
deriving DecidableEq

/-- Modelled from the spec: `DPTBase.validate_payload` (in `dpt.py`, not part
of the given sources) "accepts only an Array payload whose byte length equals
the declared field width"; any mismatch is a decode error. -/
def validate_payload (payload_length : ℕ) (payload : DPTPayload) :
    Except PyErr (List ℤ) :=
  match payload with
  | .array v =>
      if v.length = payload_length then .ok v else .error .couldNotParseTelegram
  | .binary _ => .error .couldNotParseTelegram

/-- `DPT2ByteSigned.from_knx`: validate the payload, unpack `">h"`, multiply
by the class resolution; the unreachable `struct.error` branch raises
`ConversionError`. -/
def DPT2ByteSigned.from_knx (cls : DPT2ByteSigned) (payload : DPTPayload) :
    Except PyErr ℚ :=
  match validate_payload cls.payload_length payload with
  | .error e => .error e
  | .ok raw =>
      match struct_unpack_h raw with
      | some v => .ok ((v : ℚ) * cls.resolution)
      | none => .error .conversionError

/-- `DPT2ByteSigned.to_knx`: `knx_value = int(float(value) / cls.resolution)`;
range check against `value_min`/`value_max`, then `struct.pack(">h", ...)`;
a failed check raises `ConversionError`. -/
def DPT2ByteSigned.to_knx (cls : DPT2ByteSigned) (value : ℚ) :
    Except PyErr DPTPayload :=
  let knx_value := pyInt (value / cls.resolution)
  if cls.value_min ≤ knx_value ∧ knx_value ≤ cls.value_max then
    .ok (.array (struct_pack_h knx_value))
  else .error .conversionError

/-- DPT 8.001 DPT_Value_2_Count (pulses). -/
def DPTValue2Count : DPT2ByteSigned :=
  { dpt_sub_number := some 1, value_type := "pulse_2byte_signed" }

/-- DPT 8.002 DPT_DeltaTimeMsec (ms). -/
def DPTDeltaTimeMsec : DPT2ByteSigned :=
  { dpt_sub_number := some 2, value_type := "delta_time_ms" }

/-- DPT 8.003 DPT_DeltaTime10Msec (ms). -/
def DPTDeltaTime10Msec : DPT2ByteSigned :=
  { dpt_sub_number := some 3, value_type := "delta_time_10ms", resolution := 10 }

/-- DPT 8.004 DPT_DeltaTime100Msec (ms). -/
def DPTDeltaTime100Msec : DPT2ByteSigned :=
  { dpt_sub_number := some 4, value_type := "delta_time_100ms", resolution := 100 }

/-- DPT 8.005 DPT_DeltaTimeSec (s). -/
def DPTDeltaTimeSec : DPT2ByteSigned :=
  { dpt_sub_number := some 5, value_type := "delta_time_sec" }

/-- DPT 8.006 DPT_DeltaTimeMin (min). -/
def DPTDeltaTimeMin : DPT2ByteSigned :=
  { dpt_sub_number := some 6, value_type := "delta_time_min" }

/-- DPT 8.007 DPT_DeltaTimeHrs (h). -/
def DPTDeltaTimeHrs : DPT2ByteSigned :=
  { dpt_sub_number := some 7, value_type := "delta_time_hrs" }

/-- DPT 8.010 DPT_Percent_V16 (%). -/
def DPTPercentV16 : DPT2ByteSigned :=
  { dpt_sub_number := some 10, value_type := "percentV16", resolution := 1/100 }

/-- DPT 8.011 DPT_Rotation_Angle. -/
def DPTRotationAngle : DPT2ByteSigned :=
  { dpt_sub_number := some 11, value_type := "rotation_angle" }

/-- DPT 8.012 DPT_Length_m. -/
def DPTLengthM : DPT2ByteSigned :=
  { dpt_sub_number := some 12, value_type := "length_m" }

/-- The concrete classes of the 2-byte-signed family (the base class followed
by its ten subclasses). -/
def dpt8_types : List DPT2ByteSigned :=
  [{}, DPTValue2Count, DPTDeltaTimeMsec, DPTDeltaTime10Msec, DPTDeltaTime100Msec,
   DPTDeltaTimeSec, DPTDeltaTimeMin, DPTDeltaTimeHrs, DPTPercentV16,
   DPTRotationAngle, DPTLengthM]

/-- `RemoteValueRaw` (`remote_value_raw.py`): the state relevant to
conversion is the `payload_length` bound at construction. -/
structure RemoteValueRaw where
  payload_length : ℕ
deriving DecidableEq

/-- Python `value.to_bytes(length, byteorder="big")` for a nonnegative int
that fits: big-endian byte list of the given length. -/
def int_to_bytes : ℤ → ℕ → List ℤ
  | _, 0 => []
  | v, n + 1 => int_to_bytes (v / 256) n ++ [v % 256]

/-- Python `int.from_bytes(bs, byteorder="big")`. -/
def int_from_bytes (bs : List ℤ) : ℤ :=
  bs.foldl (fun acc b => acc * 256 + b) 0

/-- `RemoteValueRaw.to_knx`: with `payload_length == 0` wrap the int directly
in a `DPTBinary`; otherwise `value.to_bytes(payload_length, "big")`, whose
`OverflowError` (negative value or value ≥ 2^(8·N)) becomes a
`ConversionError`. -/
def RemoteValueRaw.to_knx (self : RemoteValueRaw) (value : ℤ) :
    Except PyErr DPTPayload :=
  if self.payload_length = 0 then .ok (.binary value)
  else if 0 ≤ value ∧ value < 2 ^ (8 * self.payload_length) then
    .ok (.array (int_to_bytes value self.payload_length))
  else .error .conversionError

/-- `RemoteValueRaw.from_knx`: a `DPTBinary` is accepted when
`payload_length == 0`; a `DPTArray` is accepted when its length equals
`payload_length` and is decoded big-endian; anything else raises
`CouldNotParseTelegram`. -/
def RemoteValueRaw.from_knx (self : RemoteValueRaw) (payload : DPTPayload) :
    Except PyErr ℤ :=
  match payload with
  | .binary v =>
      if self.payload_length = 0 then .ok v
      else .error .couldNotParseTelegram
  | .array v =>
      if v.length = self.payload_length then .ok (int_from_bytes v)
      else .error .couldNotParseTelegram

/-- `RemoteValueScaling` (`remote_value_scaling.py`): the state relevant to
conversion is the configured logical range. -/
structure RemoteValueScaling where
  range_from : ℤ
  range_to : ℤ
deriving DecidableEq

/-- `RemoteValueScaling._calc_from_knx`:
`round((raw / 255) * delta) + range_from` (always defined). -/
def RemoteValueScaling._calc_from_knx (range_from range_to : ℤ) (raw : ℤ) : ℤ :=
  pyRound ((raw : ℚ) / 255 * ((range_to - range_from : ℤ) : ℚ)) + range_from

/-- `RemoteValueScaling._calc_to_knx`:
`round((value - range_from) / delta * 255)`; the division raises an unguarded
`ZeroDivisionError` when `delta == 0`. -/
def RemoteValueScaling._calc_to_knx (range_from range_to : ℤ) (value : ℚ) :
    Except PyErr ℤ :=
  if range_to - range_from = 0 then .error .zeroDivisionError
  else
    .ok (pyRound ((value - (range_from : ℚ)) / ((range_to - range_from : ℤ) : ℚ) * 255))

/-- `RemoteValueScaling.to_knx`: wrap `_calc_to_knx` in a one-int `DPTArray`;
no exception handling, so the `ZeroDivisionError` propagates. -/
def RemoteValueScaling.to_knx (self : RemoteValueScaling) (value : ℚ) :
    Except PyErr DPTPayload :=
  match RemoteValueScaling._calc_to_knx self.range_from self.range_to value with
  | .ok knx_value => .ok (.array [knx_value])
  | .error e => .error e

/-- `RemoteValueScaling.from_knx`: accept only a one-byte `DPTArray`,
otherwise raise `CouldNotParseTelegram`. -/
def RemoteValueScaling.from_knx (self : RemoteValueScaling)
    (payload : DPTPayload) : Except PyErr ℤ :=
  match payload with
  | .array [raw] =>
      .ok (RemoteValueScaling._calc_from_knx self.range_from self.range_to raw)
  | _ => .error .couldNotParseTelegram

/-- APCI service of a telegram (`group_communication.py` uses the three group
value services). -/
inductive APCI where
  | groupValueRead
  | groupValueWrite (value : DPTPayload)
  | groupValueResponse (value : DPTPayload)
deriving DecidableEq

/-- A telegram: destination group address (abstracted to a number) and APCI
payload. -/
structure Telegram where
  destination_address : ℕ
  payload : APCI
deriving DecidableEq

/-- Application-level values handed to the group-communication helpers:
an int, a byte sequence, or an already-encoded payload. -/
inductive PyValue where
  | int (value : ℤ)
  | bytes (value : List ℤ)
  | payload (value : DPTPayload)
deriving DecidableEq

/-- A resolved transcoder's `to_knx`, as used by `_parse_payload` after
`_parse_dpt` succeeds. -/
def EncodeFn : Type := PyValue → Except PyErr DPTPayload

/-- `_parse_payload` (`group_communication.py`): pass a payload value
through; else use the resolved transcoder when there is one; else an int
becomes a `DPTBinary` and anything else a `DPTArray` of its bytes. -/
def _parse_payload : PyValue → Option EncodeFn → Except PyErr DPTPayload
  | .payload p, _ => .ok p
  | v, some transcoder => transcoder v
  | .int z, none => .ok (.binary z)
  | .bytes bs, none => .ok (.array bs)

/-- `group_value_write`: parse the payload and enqueue a `GroupValueWrite`
telegram; the produced telegram is returned. -/
def group_value_write (group_address : ℕ) (value : PyValue)
    (transcoder : Option EncodeFn) : Except PyErr Telegram :=
  match _parse_payload value transcoder with
  | .ok payload =>
      .ok { destination_address := group_address,
            payload := .groupValueWrite payload }
  | .error e => .error e

/-- `group_value_response`: parse the payload and enqueue a
`GroupValueResponse` telegram. -/
def group_value_response (group_address : ℕ) (value : PyValue)
    (transcoder : Option EncodeFn) : Except PyErr Telegram :=
  match _parse_payload value transcoder with
  | .ok payload =>
      .ok { destination_address := group_address,
            payload := .groupValueResponse payload }
  | .error e => .error e

/-- The `.value` attribute of a payload: a `DPTArray` yields its byte tuple,
a `DPTBinary` its scalar. -/
inductive RawContent where
  | ofArray (value : List ℤ)
  | ofBinary (value : ℤ)
deriving DecidableEq

/-- `payload.value` as used by `read_group_value` for the untyped branch. -/
def DPTPayload.value : DPTPayload → RawContent
  | .array v => .ofArray v
  | .binary v => .ofBinary v

/-- Result of `read_group_value`: a transcoder-decoded number or the raw
payload content. -/
inductive ReadValue where
  | decoded (value : ℚ)
  | raw (content : RawContent)
deriving DecidableEq

/-- A resolved transcoder's `from_knx`, as used by `read_group_value`. -/
def DecodeFn : Type := DPTPayload → Except PyErr ℚ

/-- `read_group_value`: the `ValueReader` collaborator is modelled from the
spec as its observable outcome — `read(address) -> optional(response)` — and
passed in as the `response` argument.  With a response: decode with the
transcoder when one resolved, otherwise return the raw payload content
(`response.payload.value.value`); the `assert` on the APCI class is an
`AssertionError`.  Without a response: `None`. -/
def read_group_value (transcoder : Option DecodeFn)
    (response : Option Telegram) : Except PyErr (Option ReadValue) :=
  match response with
  | some r =>
      match r.payload with
      | .groupValueWrite p | .groupValueResponse p =>
          match transcoder with
          | some t =>
              match t p with
              | .ok v => .ok (some (.decoded v))
              | .error e => .error e
          | none => .ok (some (.raw p.value))
      | .groupValueRead => .error .assertionError
  | none => .ok none

/-! ### Helper lemmas -/

theorem pyInt_intCast (n : ℤ) : pyInt (n : ℚ) = n := by
  unfold pyInt; split <;> simp

theorem struct_unpack_pack (z : ℤ) (hlo : -32768 ≤ z) (hhi : z ≤ 32767) :
    struct_unpack_h (struct_pack_h z) = some z := by
  simp only [struct_pack_h, struct_unpack_h, Option.some.injEq]
  split <;> omega

theorem struct_pack_h_shape (z : ℤ) :
    ∃ b1 b2, struct_pack_h z = [b1, b2] ∧
      0 ≤ b1 ∧ b1 < 256 ∧ 0 ≤ b2 ∧ b2 < 256 :=
  ⟨z % 65536 / 256, z % 65536 % 256, rfl, by omega, by omega, by omega, by omega⟩

theorem dpt8_types_attrs (cls : DPT2ByteSigned) (hcls : cls ∈ dpt8_types) :
    cls.value_min = -32768 ∧ cls.value_max = 32767 ∧ cls.payload_length = 2 ∧
      0 < cls.resolution := by
  fin_cases hcls <;>
    norm_num [DPTValue2Count, DPTDeltaTimeMsec, DPTDeltaTime10Msec,
      DPTDeltaTime100Msec, DPTDeltaTimeSec, DPTDeltaTimeMin, DPTDeltaTimeHrs,
      DPTPercentV16, DPTRotationAngle, DPTLengthM]

/-- Characterization of a successful `DPT2ByteSigned.to_knx`. -/
theorem to_knx_ok_iff (cls : DPT2ByteSigned) (value : ℚ) (p : DPTPayload) :
    cls.to_knx value = .ok p ↔
      (cls.value_min ≤ pyInt (value / cls.resolution) ∧
        pyInt (value / cls.resolution) ≤ cls.value_max) ∧
      p = .array (struct_pack_h (pyInt (value / cls.resolution))) := by
  simp only [DPT2ByteSigned.to_knx]
  split_ifs with h
  · simp only [Except.ok.injEq]
    constructor
    · intro he; exact ⟨h, he.symm⟩
    · intro ⟨_, he⟩; exact he.symm
  · simp only [reduceCtorEq, false_iff, not_and]
    intro hc; exact absurd hc h

/-- Characterization of a failing `DPT2ByteSigned.to_knx`. -/
theorem to_knx_error_iff (cls : DPT2ByteSigned) (value : ℚ) :
    (∃ e, cls.to_knx value = .error e) ↔
      ¬(cls.value_min ≤ pyInt (value / cls.resolution) ∧
        pyInt (value / cls.resolution) ≤ cls.value_max) := by
  simp only [DPT2ByteSigned.to_knx]
  split_ifs with h <;> simp [h]

theorem int_to_bytes_length (v : ℤ) (n : ℕ) : (int_to_bytes v n).length = n := by
  induction n generalizing v <;> simp [int_to_bytes, *]

theorem int_to_bytes_mem (v : ℤ) (n : ℕ) :
    ∀ b ∈ int_to_bytes v n, 0 ≤ b ∧ b < 256 := by
  induction n generalizing v with
  | zero => simp [int_to_bytes]
  | succ n ih =>
    intro b hb
    rw [int_to_bytes] at hb
    rcases List.mem_append.mp hb with h | h
    · exact ih (v / 256) b h
    · have hb' : b = v % 256 := by simpa using h
      subst hb'; omega

theorem int_from_bytes_append (xs : List ℤ) (b : ℤ) :
    int_from_bytes (xs ++ [b]) = int_from_bytes xs * 256 + b := by
  simp [int_from_bytes, List.foldl_append]

/-- Decoding inverts encoding for nonnegative values that fit in `n` bytes. -/
theorem int_from_to_bytes (n : ℕ) (v : ℤ) (h1 : 0 ≤ v) (h2 : v < 2 ^ (8 * n)) :
    int_from_bytes (int_to_bytes v n) = v := by
  induction n generalizing v with
  | zero =>
    norm_num at h2
    simp [int_to_bytes, int_from_bytes]
    omega
  | succ n ih =>
    have hpow : (2 : ℤ) ^ (8 * (n + 1)) = 2 ^ (8 * n) * 256 := by
      rw [Nat.mul_succ, pow_add]; norm_num
    have hq1 : 0 ≤ v / 256 := Int.ediv_nonneg h1 (by norm_num)
    have hq2 : v / 256 < 2 ^ (8 * n) := by
      rw [Int.ediv_lt_iff_lt_mul (by norm_num)]
      rw [hpow] at h2; exact h2
    rw [int_to_bytes, int_from_bytes_append, ih (v / 256) hq1 hq2]
    omega

/-! ### Claims -/

/-- C1, counterexample: the claim says the 16-bit integer packed by `to_knx`
is `round(value / resolution)`; but for `DPTValue2Count` (resolution 1) at
value `3/2` the code packs the truncation `1`, while both rounding policies
the claim allows (`round half to even`, `round half away from zero`) give
`2`. -/
theorem c1_counterexample :
    DPTValue2Count.to_knx (3/2) = .ok (.array (struct_pack_h 1)) ∧
    struct_unpack_h (struct_pack_h 1) = some 1 ∧
    pyRound ((3/2 : ℚ) / DPTValue2Count.resolution) = 2 ∧
    roundHalfAway ((3/2 : ℚ) / DPTValue2Count.resolution) = 2 ∧
    (1 : ℤ) ≠ 2 := by
  refine ⟨?_, by decide, ?_, ?_, by decide⟩
  · norm_num [DPTValue2Count, DPT2ByteSigned.to_knx, pyInt]
  · norm_num [DPTValue2Count, pyRound]
  · norm_num [DPTValue2Count, roundHalfAway]

/-- C1 (amended): for `DPT2ByteSigned` and every subclass, `to_knx(value)`
computes the raw wire integer by *truncation toward zero* of
`value / resolution` (Python `int()`), not by rounding: for every value it
accepts, the 16-bit integer packed into the returned payload equals
`trunc(value / resolution)`. -/
theorem c1_to_knx_packs_truncation (cls : DPT2ByteSigned)
    (hcls : cls ∈ dpt8_types) (value : ℚ) (p : DPTPayload)
    (h : cls.to_knx value = .ok p) :
    p = .array (struct_pack_h (pyInt (value / cls.resolution))) ∧
    struct_unpack_h (struct_pack_h (pyInt (value / cls.resolution))) =
      some (pyInt (value / cls.resolution)) := by
  obtain ⟨hmin, hmax, -, -⟩ := dpt8_types_attrs cls hcls
  rw [to_knx_ok_iff] at h
  obtain ⟨⟨h1, h2⟩, hp⟩ := h
  rw [hmin] at h1; rw [hmax] at h2
  exact ⟨hp, struct_unpack_pack _ h1 h2⟩

/-- C1, witness: the amended theorem applied to `DPTPercentV16` at value
`1/2` (raw `50`). -/
theorem c1_witness :
    DPTPayload.array [0, 50] =
      .array (struct_pack_h (pyInt ((1/2 : ℚ) / DPTPercentV16.resolution))) ∧
    struct_unpack_h (struct_pack_h (pyInt ((1/2 : ℚ) / DPTPercentV16.resolution))) =
      some (pyInt ((1/2 : ℚ) / DPTPercentV16.resolution)) :=
  c1_to_knx_packs_truncation DPTPercentV16 (by simp [dpt8_types]) (1/2) _
    (by norm_num [DPTPercentV16, DPT2ByteSigned.to_knx, pyInt, struct_pack_h])

/-- C2: for `DPT2ByteSigned` and each subclass, `to_knx` raises
`ConversionError` exactly when the scaled raw integer (the truncation the code
computes, cf. C1) falls outside `[-32768, 32767]`; every error is a
`ConversionError`; on success the result is a `DPTArray` of exactly two bytes
holding the big-endian two's-complement encoding of that raw integer.  In
particular `DPTPercentV16.to_knx 400` (raw `40000`) fails.  (Non-finite
float inputs do not exist in the rational value domain of this embedding.) -/
theorem c2_to_knx_range_errors :
    (∀ cls ∈ dpt8_types, ∀ value : ℚ,
      ((∃ e, cls.to_knx value = .error e) ↔
        (pyInt (value / cls.resolution) < -32768 ∨
          32767 < pyInt (value / cls.resolution))) ∧
      (∀ e, cls.to_knx value = .error e → e = .conversionError) ∧
      (∀ p, cls.to_knx value = .ok p →
        ∃ b1 b2, p = .array [b1, b2] ∧ 0 ≤ b1 ∧ b1 < 256 ∧ 0 ≤ b2 ∧ b2 < 256 ∧
          struct_unpack_h [b1, b2] = some (pyInt (value / cls.resolution)))) ∧
    DPTPercentV16.to_knx 400 = .error .conversionError ∧
    pyInt ((400 : ℚ) / DPTPercentV16.resolution) = 40000 := by
  refine ⟨?_, ?_, ?_⟩
  · intro cls hcls value
    obtain ⟨hmin, hmax, -, -⟩ := dpt8_types_attrs cls hcls
    refine ⟨?_, ?_, ?_⟩
    · rw [to_knx_error_iff, hmin, hmax]; omega
    · intro e he
      simp only [DPT2ByteSigned.to_knx] at he
      split_ifs at he
      simp only [Except.error.injEq] at he; exact he.symm
    · intro p hp
      rw [to_knx_ok_iff, hmin, hmax] at hp
      obtain ⟨⟨h1, h2⟩, rfl⟩ := hp
      obtain ⟨b1, b2, hb, hb1, hb2, hb3, hb4⟩ :=
        struct_pack_h_shape (pyInt (value / cls.resolution))
      exact ⟨b1, b2, by rw [hb], hb1, hb2, hb3, hb4,
        hb ▸ struct_unpack_pack _ h1 h2⟩
  · norm_num [DPTPercentV16, DPT2ByteSigned.to_knx, pyInt]
  · norm_num [DPTPercentV16, pyInt]

/-- C2, witness: the main theorem instantiated at `DPTPercentV16` and value
`400`, discharging the membership hypothesis. -/
theorem c2_witness :
    (∃ e, DPTPercentV16.to_knx 400 = .error e) ↔
      (pyInt ((400 : ℚ) / DPTPercentV16.resolution) < -32768 ∨
        32767 < pyInt ((400 : ℚ) / DPTPercentV16.resolution)) :=
  (c2_to_knx_range_errors.1 DPTPercentV16 (by simp [dpt8_types]) 400).1

/-- C3: for every integer `n` in `[-32768, 32767]` and every class of the
family, `from_knx (to_knx (n * resolution))` succeeds and returns a value
within one unit of resolution of `n * resolution` (in the exact rational
model the round trip is exact). -/
theorem c3_roundtrip (cls : DPT2ByteSigned) (hcls : cls ∈ dpt8_types) (n : ℤ)
    (h1 : -32768 ≤ n) (h2 : n ≤ 32767) :
    ∃ p v, cls.to_knx ((n : ℚ) * cls.resolution) = .ok p ∧
      cls.from_knx p = .ok v ∧
      |v - (n : ℚ) * cls.resolution| ≤ cls.resolution := by
  obtain ⟨hmin, hmax, hlen, hres⟩ := dpt8_types_attrs cls hcls
  have hint : pyInt (((n : ℚ) * cls.resolution) / cls.resolution) = n := by
    rw [mul_div_cancel_right₀ _ (ne_of_gt hres), pyInt_intCast]
  refine ⟨.array (struct_pack_h n), (n : ℚ) * cls.resolution, ?_, ?_, ?_⟩
  · rw [to_knx_ok_iff, hint, hmin, hmax]; exact ⟨⟨h1, h2⟩, rfl⟩
  · have hv : validate_payload cls.payload_length (.array (struct_pack_h n)) =
        .ok (struct_pack_h n) := by
      simp [validate_payload, struct_pack_h, hlen]
    simp only [DPT2ByteSigned.from_knx, hv, struct_unpack_pack n h1 h2]
  · simpa using hres.le

/-- C3, witness: the round trip at `DPTDeltaTime10Msec` (resolution 10) and
`n = -5`. -/
theorem c3_witness :
    ∃ p v,
      DPTDeltaTime10Msec.to_knx ((-5 : ℤ) * DPTDeltaTime10Msec.resolution) =
        .ok p ∧
      DPTDeltaTime10Msec.from_knx p = .ok v ∧
      |v - ((-5 : ℤ) : ℚ) * DPTDeltaTime10Msec.resolution| ≤
        DPTDeltaTime10Msec.resolution :=
  c3_roundtrip DPTDeltaTime10Msec (by simp [dpt8_types]) (-5) (by norm_num)
    (by norm_num)

/-- C4: `DPT2ByteSigned.from_knx` (with the payload validation modelled from
the spec) rejects every payload that is not a two-byte `DPTArray` with a
decode error, and on a two-byte array returns the big-endian two's-complement
signed 16-bit value times the resolution — the defensive unpack-error branch
is never taken and the result lies in `[-32768 * r, 32767 * r]`. -/
theorem c4_from_knx (cls : DPT2ByteSigned) (hcls : cls ∈ dpt8_types) :
    (∀ p : DPTPayload, (∀ b1 b2 : ℤ, p ≠ .array [b1, b2]) →
      cls.from_knx p = .error .couldNotParseTelegram) ∧
    (∀ b1 b2 : ℤ, 0 ≤ b1 → b1 < 256 → 0 ≤ b2 → b2 < 256 →
      ∃ s : ℤ, struct_unpack_h [b1, b2] = some s ∧
        cls.from_knx (.array [b1, b2]) = .ok ((s : ℚ) * cls.resolution) ∧
        -32768 ≤ s ∧ s ≤ 32767 ∧
        -32768 * cls.resolution ≤ (s : ℚ) * cls.resolution ∧
        (s : ℚ) * cls.resolution ≤ 32767 * cls.resolution) := by
  obtain ⟨hmin, hmax, hlen, hres⟩ := dpt8_types_attrs cls hcls
  constructor
  · intro p hp
    match p with
    | .binary v => simp [DPT2ByteSigned.from_knx, validate_payload]
    | .array v =>
      have hne : v.length ≠ 2 := by
        intro hv
        match v, hv with
        | [b1, b2], _ => exact hp b1 b2 rfl
      simp [DPT2ByteSigned.from_knx, validate_payload, hlen, hne]
  · intro b1 b2 hb1 hb1' hb2 hb2'
    have hs : struct_unpack_h [b1, b2] =
        some (if b1 * 256 + b2 < 32768 then b1 * 256 + b2
              else b1 * 256 + b2 - 65536) := rfl
    set s : ℤ := if b1 * 256 + b2 < 32768 then b1 * 256 + b2
                 else b1 * 256 + b2 - 65536 with hsdef
    have hrange : -32768 ≤ s ∧ s ≤ 32767 := by rw [hsdef]; split <;> omega
    have hv : validate_payload cls.payload_length (.array [b1, b2]) =
        .ok [b1, b2] := by simp [validate_payload, hlen]
    refine ⟨s, hs, ?_, hrange.1, hrange.2, ?_, ?_⟩
    · simp only [DPT2ByteSigned.from_knx, hv, hs]
    · exact mul_le_mul_of_nonneg_right (by exact_mod_cast hrange.1) hres.le
    · exact mul_le_mul_of_nonneg_right (by exact_mod_cast hrange.2) hres.le

/-- C4, witness: the theorem at `DPTValue2Count`, applied to a `DPTBinary`
payload (rejected) and to the two-byte array `[1, 244]` (decoded to 500). -/
theorem c4_witness :
    DPTValue2Count.from_knx (.binary 7) = .error .couldNotParseTelegram ∧
    (∃ s : ℤ, struct_unpack_h [(1 : ℤ), 244] = some s ∧
      DPTValue2Count.from_knx (.array [1, 244]) =
        .ok ((s : ℚ) * DPTValue2Count.resolution) ∧
      -32768 ≤ s ∧ s ≤ 32767 ∧
      -32768 * DPTValue2Count.resolution ≤ (s : ℚ) * DPTValue2Count.resolution ∧
      (s : ℚ) * DPTValue2Count.resolution ≤ 32767 * DPTValue2Count.resolution) :=
  ⟨(c4_from_knx DPTValue2Count (by simp [dpt8_types])).1 (.binary 7)
      (by intro b1 b2 h; cases h),
   (c4_from_knx DPTValue2Count (by simp [dpt8_types])).2 1 244 (by norm_num)
      (by norm_num) (by norm_num) (by norm_num)⟩

/-- C5: `RemoteValueRaw` with `payload_length = N > 0` encodes a value as an
N-byte big-endian unsigned `DPTArray` (failing with `ConversionError` on
negative values and values `≥ 2^(8N)`) and decodes an N-length array
big-endian; with `payload_length = 0` it wraps the value in a `DPTBinary`
and returns a binary payload's selector unchanged.  Concretely for N = 2:
`to_knx 500 = [0x01, 0xF4]`, `from_knx [0x01, 0xF4] = 500`, and `to_knx (-1)`
and `to_knx 65536` fail. -/
theorem c5_remote_value_raw :
    (∀ (n : ℕ) (v : ℤ), 0 < n →
      ((0 ≤ v ∧ v < 2 ^ (8 * n)) →
        RemoteValueRaw.to_knx ⟨n⟩ v = .ok (.array (int_to_bytes v n)) ∧
        (int_to_bytes v n).length = n ∧
        (∀ b ∈ int_to_bytes v n, 0 ≤ b ∧ b < 256) ∧
        RemoteValueRaw.from_knx ⟨n⟩ (.array (int_to_bytes v n)) = .ok v) ∧
      ((v < 0 ∨ 2 ^ (8 * n) ≤ v) →
        RemoteValueRaw.to_knx ⟨n⟩ v = .error .conversionError)) ∧
    (∀ (n : ℕ) (bs : List ℤ), bs.length = n →
      RemoteValueRaw.from_knx ⟨n⟩ (.array bs) = .ok (int_from_bytes bs)) ∧
    (∀ v : ℤ, RemoteValueRaw.to_knx ⟨0⟩ v = .ok (.binary v)) ∧
    (∀ v : ℤ, RemoteValueRaw.from_knx ⟨0⟩ (.binary v) = .ok v) ∧
    RemoteValueRaw.to_knx ⟨2⟩ 500 = .ok (.array [1, 244]) ∧
    RemoteValueRaw.from_knx ⟨2⟩ (.array [1, 244]) = .ok 500 ∧
    RemoteValueRaw.to_knx ⟨2⟩ (-1) = .error .conversionError ∧
    RemoteValueRaw.to_knx ⟨2⟩ 65536 = .error .conversionError := by
  refine ⟨?_, ?_, ?_, ?_, by decide, by decide, by decide, by decide⟩
  · intro n v hn
    have hn' : ¬ n = 0 := by omega
    constructor
    · rintro ⟨h1, h2⟩
      refine ⟨?_, int_to_bytes_length v n, int_to_bytes_mem v n, ?_⟩
      · simp [RemoteValueRaw.to_knx, hn', h1, h2]
      · simp [RemoteValueRaw.from_knx, int_to_bytes_length,
          int_from_to_bytes n v h1 h2]
    · intro h
      have hcond : ¬ (0 ≤ v ∧ v < 2 ^ (8 * n)) := by
        rcases h with h | h
        · exact fun hc => absurd hc.1 (by omega)
        · exact fun hc => absurd hc.2 (not_lt.mpr h)
      simp [RemoteValueRaw.to_knx, hn', hcond]
  · intro n bs hbs
    simp [RemoteValueRaw.from_knx, hbs]
  · intro v; simp [RemoteValueRaw.to_knx]
  · intro v; simp [RemoteValueRaw.from_knx]

/-- C5, witness: the N > 0 branch of the theorem at `N = 2`, `v = 500`. -/
theorem c5_witness :
    RemoteValueRaw.to_knx ⟨2⟩ 500 = .ok (.array (int_to_bytes 500 2)) ∧
    (int_to_bytes 500 2).length = 2 ∧
    (∀ b ∈ int_to_bytes 500 2, 0 ≤ b ∧ b < 256) ∧
    RemoteValueRaw.from_knx ⟨2⟩ (.array (int_to_bytes 500 2)) = .ok 500 :=
  (c5_remote_value_raw.1 2 500 (by norm_num)).1 (by norm_num)

/-- C6, counterexample: the claim says a `DPTArray` payload with
`payload_length = 0` always raises `CouldNotParseTelegram`; but the empty
`DPTArray` has length `0 = payload_length`, is accepted, and decodes to `0`
— not an error. -/
theorem c6_counterexample :
    RemoteValueRaw.from_knx ⟨0⟩ (.array []) = .ok 0 ∧
    ¬ ∃ e, RemoteValueRaw.from_knx ⟨0⟩ (.array []) = .error e := by
  constructor
  · decide
  · rintro ⟨e, he⟩
    rw [show RemoteValueRaw.from_knx ⟨0⟩ (.array []) = .ok 0 from by decide] at he
    cases he

/-- C6 (amended): `RemoteValueRaw.from_knx` raises `CouldNotParseTelegram`
(never a silent default) for every payload whose shape or length does not
match the bound `payload_length`: a `DPTBinary` when `payload_length > 0`, a
*nonempty* `DPTArray` when `payload_length = 0` (the empty `DPTArray` is
accepted and decodes to 0), and any `DPTArray` whose length differs from
`payload_length`. -/
theorem c6_from_knx_parse_errors :
    (∀ (n : ℕ) (v : ℤ), 0 < n →
      RemoteValueRaw.from_knx ⟨n⟩ (.binary v) = .error .couldNotParseTelegram) ∧
    (∀ bs : List ℤ, bs ≠ [] →
      RemoteValueRaw.from_knx ⟨0⟩ (.array bs) = .error .couldNotParseTelegram) ∧
    (∀ (n : ℕ) (bs : List ℤ), bs.length ≠ n →
      RemoteValueRaw.from_knx ⟨n⟩ (.array bs) =
        .error .couldNotParseTelegram) := by
  refine ⟨?_, ?_, ?_⟩
  · intro n v hn
    have hn' : ¬ n = 0 := by omega
    simp [RemoteValueRaw.from_knx, hn']
  · intro bs hbs
    have hlen : bs.length ≠ 0 := by simpa using hbs
    simp [RemoteValueRaw.from_knx, hlen]
  · intro n bs hlen
    simp [RemoteValueRaw.from_knx, hlen]

/-- C6, witness: the amended theorem applied to a `DPTBinary` with
`payload_length = 2`, to a one-byte `DPTArray` with `payload_length = 0`, and
to a one-byte `DPTArray` with `payload_length = 2`. -/
theorem c6_witness :
    RemoteValueRaw.from_knx ⟨2⟩ (.binary 1) = .error .couldNotParseTelegram ∧
    RemoteValueRaw.from_knx ⟨0⟩ (.array [9]) = .error .couldNotParseTelegram ∧
    RemoteValueRaw.from_knx ⟨2⟩ (.array [9]) = .error .couldNotParseTelegram :=
  ⟨c6_from_knx_parse_errors.1 2 1 (by norm_num),
   c6_from_knx_parse_errors.2.1 [9] (by simp),
   c6_from_knx_parse_errors.2.2 2 [9] (by simp)⟩

/-- C7: `RemoteValueScaling.to_knx` returns the single byte
`round((value - range_from) / (range_to - range_from) * 255)` (whenever the
range is nondegenerate, cf. C10), `from_knx` on a one-byte array returns
`round(raw / 255 * (range_to - range_from)) + range_from` and raises
`CouldNotParseTelegram` on any other payload shape; with the default range
`[0, 100]`: `to_knx 50 = [128]`, `from_knx [128] = 50`, `to_knx 0 = [0]`,
`to_knx 100 = [255]`. -/
theorem c7_scaling :
    (∀ (rf rt : ℤ), rf ≠ rt → ∀ value : ℚ,
      RemoteValueScaling.to_knx ⟨rf, rt⟩ value =
        .ok (.array
          [pyRound ((value - (rf : ℚ)) / ((rt - rf : ℤ) : ℚ) * 255)])) ∧
    (∀ rf rt raw : ℤ,
      RemoteValueScaling.from_knx ⟨rf, rt⟩ (.array [raw]) =
        .ok (pyRound ((raw : ℚ) / 255 * ((rt - rf : ℤ) : ℚ)) + rf)) ∧
    (∀ (rf rt : ℤ) (p : DPTPayload), (∀ raw : ℤ, p ≠ .array [raw]) →
      RemoteValueScaling.from_knx ⟨rf, rt⟩ p =
        .error .couldNotParseTelegram) ∧
    RemoteValueScaling.to_knx ⟨0, 100⟩ 50 = .ok (.array [128]) ∧
    RemoteValueScaling.from_knx ⟨0, 100⟩ (.array [128]) = .ok 50 ∧
    RemoteValueScaling.to_knx ⟨0, 100⟩ 0 = .ok (.array [0]) ∧
    RemoteValueScaling.to_knx ⟨0, 100⟩ 100 = .ok (.array [255]) := by
  refine ⟨?_, ?_, ?_, ?_, ?_, ?_, ?_⟩
  · intro rf rt h value
    have hd : ¬ rt - rf = 0 := sub_ne_zero.mpr (Ne.symm h)
    simp [RemoteValueScaling.to_knx, RemoteValueScaling._calc_to_knx, hd]
  · intro rf rt raw
    simp [RemoteValueScaling.from_knx, RemoteValueScaling._calc_from_knx]
  · intro rf rt p hp
    match p with
    | .binary v => rfl
    | .array [] => rfl
    | .array [raw] => exact absurd rfl (hp raw)
    | .array (a :: b :: rest) => rfl
  · norm_num [RemoteValueScaling.to_knx, RemoteValueScaling._calc_to_knx, pyRound]
  · norm_num [RemoteValueScaling.from_knx, RemoteValueScaling._calc_from_knx,
      pyRound]
  · norm_num [RemoteValueScaling.to_knx, RemoteValueScaling._calc_to_knx, pyRound]
  · norm_num [RemoteValueScaling.to_knx, RemoteValueScaling._calc_to_knx, pyRound]

/-- C7, witness: the general formulas of the theorem applied at the default
range `[0, 100]`, value `50`, raw `128`, and a rejected `DPTBinary`. -/
theorem c7_witness :
    RemoteValueScaling.to_knx ⟨0, 100⟩ 50 = .ok (.array [128]) ∧
    RemoteValueScaling.from_knx ⟨0, 100⟩ (.array [128]) = .ok 50 ∧
    RemoteValueScaling.from_knx ⟨0, 100⟩ (.binary 3) =
      .error .couldNotParseTelegram := by
  refine ⟨?_, ?_, ?_⟩
  · rw [c7_scaling.1 0 100 (by norm_num) 50]; norm_num [pyRound]
  · rw [c7_scaling.2.1 0 100 128]; norm_num [pyRound]
  · exact c7_scaling.2.2.1 0 100 (.binary 3) (by intro raw h; cases h)

/-- C8: `_parse_payload`, used by both `group_value_write` and
`group_value_response`, passes an already-encoded payload through unchanged,
applies the resolved transcoder's `to_knx` when a value type was given, and
otherwise falls back to wrapping an int in a `DPTBinary` and any other value
in a `DPTArray` of its bytes. -/
theorem c8_parse_payload :
    (∀ (p : DPTPayload) (t : Option EncodeFn),
      _parse_payload (.payload p) t = .ok p) ∧
    (∀ (v : PyValue) (t : EncodeFn), (∀ p, v ≠ .payload p) →
      _parse_payload v (some t) = t v) ∧
    (∀ z : ℤ, _parse_payload (.int z) none = .ok (.binary z)) ∧
    (∀ bs : List ℤ, _parse_payload (.bytes bs) none = .ok (.array bs)) ∧
    (∀ (ga : ℕ) (v : PyValue) (t : Option EncodeFn) (p : DPTPayload),
      _parse_payload v t = .ok p →
      group_value_write ga v t = .ok ⟨ga, .groupValueWrite p⟩ ∧
      group_value_response ga v t = .ok ⟨ga, .groupValueResponse p⟩) := by
  refine ⟨?_, ?_, fun z => rfl, fun bs => rfl, ?_⟩
  · intro p t
    match t with
    | some t => rfl
    | none => rfl
  · intro v t hv
    match v with
    | .int z => rfl
    | .bytes bs => rfl
    | .payload p => exact absurd rfl (hv p)
  · intro ga v t p h
    constructor
    · simp [group_value_write, h]
    · simp [group_value_response, h]

/-- C8, witness: the transcoder branch at value `int 5` with a concrete
encode function, and the untyped fallback fed into `group_value_write`. -/
theorem c8_witness :
    _parse_payload (.int 5) (some fun _ => .ok (.binary 0)) =
      .ok (.binary 0) ∧
    group_value_write 1 (.int 5) none = .ok ⟨1, .groupValueWrite (.binary 5)⟩ :=
  ⟨c8_parse_payload.2.1 (.int 5) (fun _ => .ok (.binary 0))
      (by intro p h; cases h),
   (c8_parse_payload.2.2.2.2 1 (.int 5) none (.binary 5) rfl).1⟩

/-- C9: `read_group_value` (with the `ValueReader` collaborator modelled from
the spec as its optional response) returns the transcoder-decoded value when
a transcoder resolved, the raw payload content when none was given, and
`None` when the reader yields no response. -/
theorem c9_read_group_value :
    (∀ t : Option DecodeFn, read_group_value t none = .ok none) ∧
    (∀ (ga : ℕ) (p : DPTPayload) (t : DecodeFn) (v : ℚ), t p = .ok v →
      read_group_value (some t) (some ⟨ga, .groupValueWrite p⟩) =
        .ok (some (.decoded v)) ∧
      read_group_value (some t) (some ⟨ga, .groupValueResponse p⟩) =
        .ok (some (.decoded v))) ∧
    (∀ (ga : ℕ) (p : DPTPayload),
      read_group_value none (some ⟨ga, .groupValueWrite p⟩) =
        .ok (some (.raw p.value)) ∧
      read_group_value none (some ⟨ga, .groupValueResponse p⟩) =
        .ok (some (.raw p.value))) := by
  refine ⟨fun t => rfl, ?_, ?_⟩
  · intro ga p t v h
    constructor <;> simp [read_group_value, h]
  · intro ga p
    constructor <;> simp [read_group_value]

/-- C9, witness: the decoded branch at a concrete transcoder and payload. -/
theorem c9_witness :
    read_group_value (some fun _ => .ok 5)
        (some ⟨1, .groupValueWrite (.array [0, 1])⟩) =
      .ok (some (.decoded 5)) :=
  (c9_read_group_value.2.1 1 (.array [0, 1]) (fun _ => .ok 5) 5 rfl).1

/-- C10: a `RemoteValueScaling` constructed with `range_from = range_to`
raises an unguarded `ZeroDivisionError` (distinct from `ConversionError`)
from `to_knx` for every input value, while `from_knx` on any single-byte
payload still succeeds and returns `range_from`. -/
theorem c10_zero_width_range :
    (∀ (r : ℤ) (value : ℚ),
      RemoteValueScaling.to_knx ⟨r, r⟩ value = .error .zeroDivisionError) ∧
    (∀ r raw : ℤ,
      RemoteValueScaling.from_knx ⟨r, r⟩ (.array [raw]) = .ok r) ∧
    PyErr.zeroDivisionError ≠ PyErr.conversionError := by
  refine ⟨?_, ?_, by decide⟩
  · intro r value
    simp [RemoteValueScaling.to_knx, RemoteValueScaling._calc_to_knx]
  · intro r raw
    simp only [RemoteValueScaling.from_knx, RemoteValueScaling._calc_from_knx,
      sub_self, Int.cast_zero, mul_zero, Except.ok.injEq]
    norm_num [pyRound]
